/-
Verification of the joystick-input-to-motion pipeline of the
Embedded_Systems_Y2 repository.

The repository holds three independent Python scripts:
  * `WirelessJoystockcontrol/character.py` — the 3D variant: a background
    `SerialReader` thread parses JSON lines into joystick samples,
    `Game.handle_serial_messages` normalizes them with a deadzone, and
    `Game.update` integrates yaw/position.
  * `joystick-bluetooth/joystick/game.py` — the cube variant with
    `find_bluetooth_port` (auto-discovery) and `CubeGame.read_joystick`.
  * `joystick_game.py` — the 2D variant with a delimited `x,y,button`
    line format and a clamped position update.

This file shallow-embeds the pieces of that code the claims are about:
Python ints become `Int`, Python float arithmetic on the small decimal
constants involved becomes `Rat` (exact for every value the claims touch),
fallible Python code becomes `Option`/`Except`, and the per-frame mutable
state of the `Game` object becomes explicit state passing.
-/
import Mathlib

namespace EmbSys

/-- Python's builtin `min(a, b)`: returns `a` when `a <= b`, else `b`. -/
def pyMinQ (a b : ℚ) : ℚ := if a ≤ b then a else b

/-- Python's builtin `max(a, b)`: returns `a` when `a >= b`, else `b`. -/
def pyMaxQ (a b : ℚ) : ℚ := if b ≤ a then a else b

/-- Python's builtin `min(a, b)` on ints. -/
def pyMinZ (a b : ℤ) : ℤ := if a ≤ b then a else b

/-- Python's builtin `max(a, b)` on ints. -/
def pyMaxZ (a b : ℤ) : ℤ := if b ≤ a then a else b

/-! ### Configuration constants of `character.py` (lines 33-40) -/

def ANALOG_MIN : ℚ := 0
def ANALOG_MAX : ℚ := 1023
def DEADZONE : ℚ := 60
def FORWARD_SPEED : ℚ := 220
def ROT_SPEED : ℚ := 160
def SENSITIVITY_ROT : ℚ := 1/4
def SENSITIVITY_MOVE : ℚ := 3/5

/-! ### The normalize pipeline of `Game.handle_serial_messages`
(`character.py` lines 271-285).  The Python code, per axis:
`x = x_raw - (ANALOG_MAX + ANALOG_MIN) / 2`;
`if abs(x) < DEADZONE: x = 0`;
`x_norm = max(-1.0, min(1.0, x / ((ANALOG_MAX - ANALOG_MIN) / 2)))`;
then `forward = -y_norm * SENSITIVITY_MOVE`, `turn = x_norm * SENSITIVITY_ROT`. -/

/-- Midpoint of the analog range, `(ANALOG_MAX + ANALOG_MIN) / 2` = 511.5. -/
def analogCenter : ℚ := (ANALOG_MAX + ANALOG_MIN) / 2

/-- Half of the analog range, `(ANALOG_MAX - ANALOG_MIN) / 2` = 511.5. -/
def analogHalf : ℚ := (ANALOG_MAX - ANALOG_MIN) / 2

/-- `if abs(x) < DEADZONE: x = 0` (lines 276-277). -/
def applyDeadzone (x : ℚ) : ℚ := if |x| < DEADZONE then 0 else x

/-- `max(-1.0, min(1.0, q))` (lines 280-281). -/
def clampUnit (q : ℚ) : ℚ := pyMaxQ (-1) (pyMinQ 1 q)

/-- One axis of the normalization in `handle_serial_messages`:
center, deadzone, rescale, clamp, in the code's order. -/
def normAxis (v : ℤ) : ℚ :=
  clampUnit (applyDeadzone ((v : ℚ) - analogCenter) / analogHalf)

/-- `self.forward = -y_norm * SENSITIVITY_MOVE` (line 284). -/
def forwardOf (yRaw : ℤ) : ℚ := -(normAxis yRaw) * SENSITIVITY_MOVE

/-- `self.turn = x_norm * SENSITIVITY_ROT` (line 285). -/
def turnOf (xRaw : ℤ) : ℚ := normAxis xRaw * SENSITIVITY_ROT

/-- Abbreviation for the simp set that evaluates the normalize pipeline on
concrete inputs. -/
theorem normAxis_unfold (v : ℤ) :
    normAxis v =
      pyMaxQ (-1) (pyMinQ 1
        ((if |(v : ℚ) - 1023/2| < 60 then 0 else (v : ℚ) - 1023/2) / (1023/2))) := by
  norm_num [normAxis, clampUnit, applyDeadzone, analogCenter, analogHalf,
    ANALOG_MAX, ANALOG_MIN, DEADZONE]

/-! ### The mutable input/motion state of the `Game` object
(`character.py` lines 237-241, 247) and the per-frame functions acting
on it.  Only the fields the claims are about are modelled: `forward`,
`turn`, `player_yaw`, `last_joy_x/y`, `bt_connected`, plus a counter
`logs` of how many times the one-shot "Receiving joystick data" message
of line 289 has been printed.  The position update of `Game.update`
(lines 328-333) involves `math.sin`/`math.cos` and is modelled separately
by `moveDelta` below with the sine/cosine pair passed as an abstract unit
vector, since the claims about position only depend on `sin^2 + cos^2 = 1`. -/

structure GState where
  forward : ℚ
  turn : ℚ
  yaw : ℚ
  lastJoyX : ℤ
  lastJoyY : ℤ
  btConnected : Bool
  logs : ℕ
deriving DecidableEq, Repr

/-- The state of `Game.__init__`: `forward = turn = 0`, `player_yaw = 0`,
`last_joy_x = last_joy_y = 512`, no connect message printed yet.
`bt0` is the value `self.bt_connected` holds after line 253 (`False` unless
the serial thread had already connected during the startup half-second). -/
def initState (bt0 : Bool) : GState :=
  { forward := 0, turn := 0, yaw := 0, lastJoyX := 512, lastJoyY := 512
    btConnected := bt0, logs := 0 }

/-- Processing of one `('joy', x, y)` queue message inside
`Game.handle_serial_messages` (lines 266-289): record the raw values,
derive `forward`/`turn` through the normalize pipeline, and flip
`bt_connected` (printing the connect message) if it was still false. -/
def handleSerialMsg (st : GState) (m : ℤ × ℤ) : GState :=
  { st with
    lastJoyX := m.1
    lastJoyY := m.2
    forward := forwardOf m.2
    turn := turnOf m.1
    btConnected := true
    logs := if st.btConnected then st.logs else st.logs + 1 }

/-- `Game.handle_serial_messages` (lines 262-289): drain the queue,
applying every pending joystick message in arrival order (last one wins
for `forward`/`turn`). -/
def handleSerialMessages (st : GState) (msgs : List (ℤ × ℤ)) : GState :=
  msgs.foldl handleSerialMsg st

/-- Pressed-key snapshot used by the keyboard fallback of
`Game.handle_input` (lines 293-305). -/
structure Keys where
  w : Bool
  s : Bool
  q : Bool
  e : Bool
deriving DecidableEq, Repr

def noKeys : Keys := { w := false, s := false, q := false, e := false }

/-- `k_forward` of `Game.handle_input` (lines 297-300). -/
def kForward (k : Keys) : ℚ :=
  (if k.w then (1 : ℚ) else 0) - (if k.s then (1 : ℚ) else 0)

/-- `k_turn * (ROT_SPEED / 180.0)` of `Game.handle_input` (lines 302-305). -/
def kTurn (k : Keys) : ℚ :=
  ((if k.q then (1 : ℚ) else 0) - (if k.e then (1 : ℚ) else 0)) * (ROT_SPEED / 180)

/-- `Game.handle_input` (lines 291-305), control part: the keyboard is
consulted only under `not (self.forward or self.turn)`, i.e. only when the
current control vector is exactly zero (Python float truthiness). -/
def handleInput (st : GState) (k : Keys) : GState :=
  if st.forward = 0 ∧ st.turn = 0 then
    { st with forward := kForward k, turn := kTurn k }
  else st

/-- The yaw integration line of `Game.update` (line 325):
`self.player_yaw += self.turn * ROT_SPEED * dt`. -/
def updateYaw (st : GState) (dt : ℚ) : GState :=
  { st with yaw := st.yaw + st.turn * ROT_SPEED * dt }

/-- `Game.update` (lines 320-333), the part acting on the modelled state:
drain the serial queue, then integrate yaw. -/
def gameUpdate (st : GState) (msgs : List (ℤ × ℤ)) (dt : ℚ) : GState :=
  updateYaw (handleSerialMessages st msgs) dt

/-- What one iteration of the main loop `Game.run` (lines 416-424) feeds
the modelled state: the keys held, the joystick messages queued since the
previous frame, and the (already clamped) `dt`. -/
structure FrameInput where
  msgs : List (ℤ × ℤ)
  keys : Keys
  dt : ℚ

/-- One iteration of `Game.run`: `handle_input` runs first (line 422),
then `update` (line 423) drains the queue and integrates. -/
def stepFrame (st : GState) (fi : FrameInput) : GState :=
  gameUpdate (handleInput st fi.keys) fi.msgs fi.dt

/-- A whole session: fold the frame loop over a list of frame inputs. -/
def runFrames (st : GState) (fis : List FrameInput) : GState :=
  fis.foldl stepFrame st

/-! ### The dt clamp of `Game.run` (line 420) and the position step of
`Game.update` (lines 328-333). -/

/-- `dt = max(0.0, min(1/15, dt))` (line 420). -/
def clampDt (dt : ℚ) : ℚ := pyMaxQ 0 (pyMinQ (1/15) dt)

/-- The position delta of `Game.update` (lines 328-333):
`dx = sin(yaw_rad) * forward * FORWARD_SPEED * dt`,
`dz = cos(yaw_rad) * forward * FORWARD_SPEED * dt`, guarded by
`abs(forward) > 0.001`.  `sinYaw`/`cosYaw` stand for
`math.sin(yaw_rad)`/`math.cos(yaw_rad)`; every claim about the position
only uses `sinYaw^2 + cosYaw^2 = 1`. -/
def moveDelta (forward sinYaw cosYaw dt : ℚ) : ℚ × ℚ :=
  if 1/1000 < |forward| then
    (sinYaw * forward * FORWARD_SPEED * dt, cosYaw * forward * FORWARD_SPEED * dt)
  else (0, 0)

/-! ### The line parsing of `SerialReader.run` (`character.py` lines
114-148).  `json.loads` is a Python standard-library call; it is modelled
here by a recursive-descent parser for the JSON fragment the device
protocol uses: objects, arrays, double-quoted strings without escape
sequences, decimal integers (no leading zeros, as in JSON), `true`,
`false`, `null`.  JSON floats are outside the modelled fragment (the wire
format of the spec is `x:int, y:int`).  Python's `int(...)` on the parsed
values is modelled by `pyInt`, returning `Except` because a failed
conversion raises past the `json.JSONDecodeError` handler of line 139. -/

inductive JValue where
  | jnull
  | jbool (b : Bool)
  | jint (n : ℤ)
  | jstr (s : List Char)
  | jarr (xs : List JValue)
  | jobj (fields : List (List Char × JValue))

def lbrace : Char := Char.ofNat 123
def rbrace : Char := Char.ofNat 125
def dquote : Char := Char.ofNat 34
def bslash : Char := Char.ofNat 92

/-- JSON insignificant whitespace. -/
def isJsonWs (c : Char) : Bool := c = ' ' ∨ c = '\t' ∨ c = '\n' ∨ c = '\r'

def skipWs : List Char → List Char
  | [] => []
  | c :: cs => if isJsonWs c then skipWs cs else c :: cs

/-- Value of a (nonempty) run of decimal digits. -/
def digitsToNat (cs : List Char) : ℕ :=
  cs.foldl (fun a c => a * 10 + (c.toNat - 48)) 0

/-- JSON forbids leading zeros in numbers. -/
def jsonDigitsOk (ds : List Char) : Bool :=
  match ds with
  | [] => false
  | [_] => true
  | d :: _ :: _ => d ≠ '0'

/-- Body of a double-quoted string, up to the closing quote; escape
sequences are outside the modelled fragment. -/
def parseStringBody : List Char → Option (List Char × List Char)
  | [] => none
  | c :: cs =>
    if c = dquote then some ([], cs)
    else if c = bslash then none
    else (parseStringBody cs).map (fun p => (c :: p.1, p.2))

mutual

/-- One JSON value, by recursive descent; the fuel only bounds nesting
depth and is in practice the input length. -/
def parseJ : ℕ → List Char → Option (JValue × List Char)
  | 0, _ => none
  | Nat.succ fuel, s =>
    match skipWs s with
    | [] => none
    | c :: cs =>
      if c = 'n' then
        match cs with
        | 'u' :: 'l' :: 'l' :: rest => some (.jnull, rest)
        | _ => none
      else if c = 't' then
        match cs with
        | 'r' :: 'u' :: 'e' :: rest => some (.jbool true, rest)
        | _ => none
      else if c = 'f' then
        match cs with
        | 'a' :: 'l' :: 's' :: 'e' :: rest => some (.jbool false, rest)
        | _ => none
      else if c = dquote then
        (parseStringBody cs).map (fun p => (.jstr p.1, p.2))
      else if c = '-' then
        match cs.span Char.isDigit with
        | (ds, rest) =>
          if jsonDigitsOk ds then some (.jint (-(digitsToNat ds : ℤ)), rest) else none
      else if c.isDigit then
        match (c :: cs).span Char.isDigit with
        | (ds, rest) =>
          if jsonDigitsOk ds then some (.jint (digitsToNat ds : ℤ), rest) else none
      else if c = '[' then
        match skipWs cs with
        | ']' :: rest => some (.jarr [], rest)
        | s1 => parseElems fuel s1 []
      else if c = lbrace then
        match skipWs cs with
        | c1 :: cs1 =>
          if c1 = rbrace then some (.jobj [], cs1)
          else parseFields fuel (c1 :: cs1) []
        | [] => none
      else none

/-- Comma-separated members of an object, after the opening brace. -/
def parseFields : ℕ → List Char → List (List Char × JValue) →
    Option (JValue × List Char)
  | 0, _, _ => none
  | Nat.succ fuel, s, acc =>
    match skipWs s with
    | [] => none
    | c :: cs =>
      if c = dquote then
        match parseStringBody cs with
        | some (key, rest) =>
          match skipWs rest with
          | ':' :: rest2 =>
            match parseJ fuel rest2 with
            | some (v, rest3) =>
              match skipWs rest3 with
              | c2 :: cs2 =>
                if c2 = ',' then parseFields fuel cs2 (acc ++ [(key, v)])
                else if c2 = rbrace then some (.jobj (acc ++ [(key, v)]), cs2)
                else none
              | [] => none
            | none => none
          | _ => none
        | none => none
      else none

/-- Comma-separated elements of an array, after the opening bracket. -/
def parseElems : ℕ → List Char → List JValue → Option (JValue × List Char)
  | 0, _, _ => none
  | Nat.succ fuel, s, acc =>
    match parseJ fuel s with
    | some (v, rest) =>
      match skipWs rest with
      | ',' :: rest2 => parseElems fuel rest2 (acc ++ [v])
      | ']' :: rest2 => some (.jarr (acc ++ [v]), rest2)
      | _ => none
    | none => none

end

/-- `json.loads(line)`: parse one JSON value and require only whitespace
after it; `none` models `json.JSONDecodeError`. -/
def jsonLoads (line : List Char) : Option JValue :=
  match parseJ (line.length + 1) line with
  | some (v, rest) => if skipWs rest = [] then some v else none
  | none => none

/-- Python `str.strip()` whitespace. -/
def isPySpace (c : Char) : Bool :=
  c = ' ' ∨ c = '\t' ∨ c = '\n' ∨ c = '\r' ∨ c = Char.ofNat 11 ∨ c = Char.ofNat 12

/-- Python `str.strip()`. -/
def stripChars (s : List Char) : List Char :=
  ((s.dropWhile isPySpace).reverse.dropWhile isPySpace).reverse

/-- Python `int(value)` on a string: strip, optional sign, a nonempty run
of digits; anything else raises `ValueError`. -/
def pyIntOfStr (s : List Char) : Except Unit ℤ :=
  match stripChars s with
  | '-' :: ds => if ds ≠ [] ∧ ds.all Char.isDigit then .ok (-(digitsToNat ds : ℤ)) else .error ()
  | '+' :: ds => if ds ≠ [] ∧ ds.all Char.isDigit then .ok (digitsToNat ds : ℤ) else .error ()
  | ds => if ds ≠ [] ∧ ds.all Char.isDigit then .ok (digitsToNat ds : ℤ) else .error ()

/-- Python `int(value)` on a decoded JSON value: ints pass through, bools
become 0/1, numeric strings are converted, everything else raises. -/
def pyInt : JValue → Except Unit ℤ
  | .jint n => .ok n
  | .jbool b => .ok (if b then 1 else 0)
  | .jstr s => pyIntOfStr s
  | _ => .error ()

def xKey : List Char := ['x']
def yKey : List Char := ['y']

/-- `'x' in obj` on a JSON object. -/
def jHas (fs : List (List Char × JValue)) (k : List Char) : Bool :=
  (fs.find? (fun f => f.1 == k)).isSome

/-- `obj[k]` on the dict `json.loads` builds: later duplicate keys win. -/
def jGet (fs : List (List Char × JValue)) (k : List Char) : Option JValue :=
  (fs.reverse.find? (fun f => f.1 == k)).map (fun f => f.2)

/-- Lines 134-143 of `SerialReader.run`, for one stripped, nonempty line:
`json.loads` failure is swallowed by the `except json.JSONDecodeError`
handler (`.ok none`); a dict with both keys yields a sample; a failing
`int(...)` raises past that handler (`.error`), to be caught by the outer
`except Exception` of the read loop (line 145). -/
def handleLine (line : List Char) : Except Unit (Option (ℤ × ℤ)) :=
  match jsonLoads line with
  | none => .ok none
  | some v =>
    match v with
    | .jobj fs =>
      if jHas fs xKey ∧ jHas fs yKey then
        match jGet fs xKey, jGet fs yKey with
        | some xv, some yv =>
          match pyInt xv with
          | .error e => .error e
          | .ok x =>
            match pyInt yv with
            | .error e => .error e
            | .ok y => .ok (some (x, y))
        | _, _ => .ok none
      else .ok none
    | _ => .ok none

/-- One raw (pre-strip) line as handled by lines 129-143: strip it, skip
it when empty, else hand it to the JSON step. -/
def lineStep (raw : List Char) : Except Unit (Option (ℤ × ℤ)) :=
  let l := stripChars raw
  if l = [] then .ok none else handleLine l

/-- The sample a raw line contributes, if any. -/
def goodSample (raw : List Char) : Option (ℤ × ℤ) :=
  match lineStep raw with
  | .ok (some s) => some s
  | _ => none

/-- One pass of the inner `while "\n" in buffer` loop (lines 128-143)
until either the buffered lines run out or a line raises: returns the
samples queued in this pass and the lines still buffered when the outer
`except Exception` handler catches the escape. -/
def drainOnce : List (List Char) → List (ℤ × ℤ) × List (List Char)
  | [] => ([], [])
  | l :: ls =>
    match lineStep l with
    | .error _ => ([], ls)
    | .ok none => drainOnce ls
    | .ok (some s) =>
      let p := drainOnce ls
      (s :: p.1, p.2)

/-- The read loop of `SerialReader.run` as it keeps running after the
outer handler catches an escape: repeat `drainOnce` on what is left. -/
def drainAll : ℕ → List (List Char) → List (ℤ × ℤ)
  | 0, _ => []
  | Nat.succ fuel, lines =>
    match lines with
    | [] => []
    | _ :: _ =>
      let p := drainOnce lines
      p.1 ++ drainAll fuel p.2

/-! ### Startup and port discovery.
`character.py`: `find_serial_port` (lines 56-82) and the serial branch of
`Game.__init__` (lines 243-260) together with the connect attempt of
`SerialReader.run` (lines 95-112).
`joystick-bluetooth/joystick/game.py`: `find_bluetooth_port`
(lines 6-13), which calls `sys.exit(1)` when no port matches. -/

structure PortInfo where
  device : List Char
  description : List Char
deriving DecidableEq, Repr

/-- Python `str.lower()` on the ASCII names involved. -/
def lowerChars (s : List Char) : List Char := s.map Char.toLower

/-- Python's `needle in hay` on strings: contiguous-substring test. -/
def containsSub (needle : List Char) : List Char → Bool
  | [] => needle.isEmpty
  | c :: cs => needle.isPrefixOf (c :: cs) || containsSub needle cs

/-- The keyword test of `find_serial_port` (lines 71-72):
`"bluetooth" in name or "hc-05" in name or "hc-06" in name` over the
lower-cased `device + " " + description`. -/
def descMatchesBT (p : PortInfo) : Bool :=
  let name := lowerChars (p.device ++ [' '] ++ p.description)
  containsSub "bluetooth".data name ∨ containsSub "hc-05".data name ∨
    containsSub "hc-06".data name

/-- `find_serial_port` (lines 56-82): a configured port wins; otherwise
the first Bluetooth-looking port; otherwise the first port; otherwise
`None`. -/
def findSerialPort (cfg : Option (List Char)) (ports : List PortInfo) :
    Option (List Char) :=
  match cfg with
  | some p => some p
  | none =>
    match ports.find? descMatchesBT with
    | some p => some p.device
    | none => (ports.head?).map (fun p => p.device)

/-- How a script leaves its startup phase. -/
inductive StartupOutcome where
  | terminated
  | fallbackMode
  | connectedMode
deriving DecidableEq, Repr

/-- The startup of `character.py` (`Game.__init__` lines 243-260 plus the
connect attempt of `SerialReader.run` lines 101-112), as the pair of the
resulting mode and the number of connection-error messages printed:
no port found means keyboard mode with no error message; a port whose
open raises means the thread prints the one "Serial connection failed"
report and returns, the game continuing in keyboard mode; an open that
succeeds means connected mode.  Nothing on any path exits the process. -/
def characterStartup (cfg : Option (List Char)) (ports : List PortInfo)
    (openOk : List Char → Bool) : StartupOutcome × ℕ :=
  match findSerialPort cfg ports with
  | none => (.fallbackMode, 0)
  | some dev => if openOk dev then (.connectedMode, 0) else (.fallbackMode, 1)

/-- The keyword test of `find_bluetooth_port` (line 9), case sensitive:
`"Bluetooth" in p.description or "HC-05" in p.description or
"Serial" in p.description`. -/
def descMatchesCube (p : PortInfo) : Bool :=
  containsSub "Bluetooth".data p.description ∨
    containsSub "HC-05".data p.description ∨ containsSub "Serial".data p.description

/-- `find_bluetooth_port` (`joystick-bluetooth/joystick/game.py` lines
6-13): return the first matching port, else `sys.exit(1)`; the `error`
branch models the process exit. -/
def findBluetoothPort (ports : List PortInfo) : Except Unit PortInfo :=
  match ports.find? descMatchesCube with
  | some p => .ok p
  | none => .error ()

/-- Startup of the cube variant (`game.py` lines 95-98): an `error` from
`find_bluetooth_port` is `sys.exit(1)`, so the process terminates; there
is no local-input fallback path in this script.  An `openOk = false` port
makes `serial.Serial` raise inside `find_bluetooth_port`; the exception
is uncaught, which also ends the process. -/
def cubeStartup (ports : List PortInfo) (openOk : List Char → Bool) :
    StartupOutcome :=
  match findBluetoothPort ports with
  | .error _ => .terminated
  | .ok p => if openOk p.device then .connectedMode else .terminated

/-! ### The 2D variant `joystick_game.py`: delimited parsing (lines
31-37) and the clamped position update (lines 40-48). -/

/-- Python `str.isdigit()` for the ASCII lines of the wire format: true
exactly for a nonempty, all-digit string. -/
def pyIsDigitStr (s : List Char) : Bool := s ≠ [] ∧ s.all Char.isDigit

/-- Lines 32-36: `line = ser.readline().decode().strip()`; empty lines
are skipped; `data = line.split(',')`; a sample is produced only when
`len(data) == 3 and all(d.isdigit() for d in data)`, via `map(int, data)`. -/
def parse2DLine (raw : List Char) : Option (ℤ × ℤ × ℤ) :=
  let line := stripChars raw
  if line = [] then none
  else
    match line.splitOn ',' with
    | [a, b, c] =>
      if pyIsDigitStr a ∧ pyIsDigitStr b ∧ pyIsDigitStr c then
        some ((digitsToNat a : ℤ), (digitsToNat b : ℤ), (digitsToNat c : ℤ))
      else none
    | _ => none

/-- `win_width, win_height = 800, 600`; `character_size = 50`;
`character_speed = 5` (lines 7-15).  The candidate position of lines
40-45: `character_x + (joy_x - 512) // 100 * character_speed`, clamped to
`[character_size // 2, win_width - character_size // 2]` (and the same
for y with the height); Python `//` is floor division. -/
def new2D (pos : ℤ × ℤ) (joy : ℤ × ℤ) : ℤ × ℤ :=
  (pyMaxZ 25 (pyMinZ 775 (pos.1 + (joy.1 - 512).fdiv 100 * 5)),
   pyMaxZ 25 (pyMinZ 575 (pos.2 + (joy.2 - 512).fdiv 100 * 5)))

/-- Lines 40-48 for one parsed sample: the position is adopted only when
it differs from `(prev_x, prev_y)`, which lines 23-24 set once, before
the loop, to the centered initial position and never update. -/
def step2D (prev : ℤ × ℤ) (pos : ℤ × ℤ) (joy : ℤ × ℤ) : ℤ × ℤ :=
  if new2D pos joy ≠ prev then new2D pos joy else pos

/-- The main loop of `joystick_game.py` over the parsed samples, from the
centered initial position `(400, 300)` (line 14). -/
def run2D (samples : List (ℤ × ℤ)) : ℤ × ℤ :=
  samples.foldl (step2D (400, 300)) (400, 300)

/-- The window-boundary invariant of the 2D variant. -/
def inBounds2D (p : ℤ × ℤ) : Prop :=
  25 ≤ p.1 ∧ p.1 ≤ 775 ∧ 25 ≤ p.2 ∧ p.2 ≤ 575

instance (p : ℤ × ℤ) : Decidable (inBounds2D p) := by
  unfold inBounds2D; infer_instance

deriving instance DecidableEq for Except

/-! ## Theorems for the claims -/

/-- C1 counterexample: processing the raw sample `(x=1023, y=512)` sets
`turn` to `SENSITIVITY_ROT = 0.25`, not `+1`, and one frame with
`dt = 0.1` increases `yaw` (from 0) by 4 degrees, not by
`ROT_SPEED * 0.1 = 16`. -/
theorem C1_counterexample :
    (runFrames (initState false) [⟨[(1023, 512)], noKeys, 1/10⟩]).turn = 1/4 ∧
    ¬ (runFrames (initState false) [⟨[(1023, 512)], noKeys, 1/10⟩]).turn = 1 ∧
    (runFrames (initState false) [⟨[(1023, 512)], noKeys, 1/10⟩]).yaw = 4 ∧
    ¬ (runFrames (initState false) [⟨[(1023, 512)], noKeys, 1/10⟩]).yaw =
        ROT_SPEED * (1/10) := by
  norm_num [runFrames, stepFrame, gameUpdate, updateYaw, handleSerialMessages,
    handleSerialMsg, handleInput, initState, noKeys, kForward, kTurn, turnOf,
    forwardOf, SENSITIVITY_ROT, SENSITIVITY_MOVE, ROT_SPEED, normAxis_unfold,
    pyMaxQ, pyMinQ, abs_lt]

/-- C1 amended: for the 3D variant with deadzone 60 and range [0,1023],
the sample `(x=1023, y=512)` normalizes to `x_norm = +1` (full right) and
yields `turn = SENSITIVITY_ROT = +0.25`, so one frame with `dt = 0.1`
increases `yaw` by exactly `SENSITIVITY_ROT * ROT_SPEED * 0.1` = 4
degrees; the subsequent sample `(x=0, y=512)` normalizes to `-1`, yields
`turn = -0.25`, and the next frame changes `yaw` by exactly the opposite
amount, reversing the sign of yaw's rate of change. -/
theorem C1_amended :
    normAxis 1023 = 1 ∧ normAxis 0 = -1 ∧
    (runFrames (initState false) [⟨[(1023, 512)], noKeys, 1/10⟩]).turn =
      SENSITIVITY_ROT ∧
    (runFrames (initState false) [⟨[(1023, 512)], noKeys, 1/10⟩]).yaw =
      SENSITIVITY_ROT * ROT_SPEED * (1/10) ∧
    (runFrames (initState false)
        [⟨[(1023, 512)], noKeys, 1/10⟩, ⟨[(0, 512)], noKeys, 1/10⟩]).turn =
      -SENSITIVITY_ROT ∧
    (runFrames (initState false)
          [⟨[(1023, 512)], noKeys, 1/10⟩, ⟨[(0, 512)], noKeys, 1/10⟩]).yaw -
        (runFrames (initState false) [⟨[(1023, 512)], noKeys, 1/10⟩]).yaw =
      -(SENSITIVITY_ROT * ROT_SPEED * (1/10)) := by
  norm_num [runFrames, stepFrame, gameUpdate, updateYaw, handleSerialMessages,
    handleSerialMsg, handleInput, initState, noKeys, kForward, kTurn, turnOf,
    forwardOf, SENSITIVITY_ROT, SENSITIVITY_MOVE, ROT_SPEED, normAxis_unfold,
    pyMaxQ, pyMinQ, abs_lt]

/-! Helper lemmas for the deadzone claim.  The deadzone band
`|v - 511.5| ≤ 60` on integer raw values is expressed over ℤ as
`|2*v - 1023| ≤ 120`; since `2*v - 1023` is odd the closed and open
bands contain exactly the same integers. -/

theorem analogCenter_eq : analogCenter = 1023 / 2 := by
  norm_num [analogCenter, ANALOG_MAX, ANALOG_MIN]

theorem analogHalf_eq : analogHalf = 1023 / 2 := by
  norm_num [analogHalf, ANALOG_MAX, ANALOG_MIN]

theorem centered_cast (v : ℤ) :
    (v : ℚ) - analogCenter = ((2 * v - 1023 : ℤ) : ℚ) / 2 := by
  rw [analogCenter_eq]; push_cast; ring

theorem pyMinQ_eq_right {a q : ℚ} (h : q ≤ a) : pyMinQ a q = q := by
  unfold pyMinQ
  split_ifs with h1
  · exact le_antisymm h1 h
  · rfl

theorem pyMaxQ_eq_right {a q : ℚ} (h : a ≤ q) : pyMaxQ a q = q := by
  unfold pyMaxQ
  split_ifs with h1
  · exact le_antisymm h h1
  · rfl

theorem clampUnit_id {q : ℚ} (h1 : -1 ≤ q) (h2 : q ≤ 1) : clampUnit q = q := by
  unfold clampUnit
  rw [pyMinQ_eq_right h2, pyMaxQ_eq_right h1]

theorem clampUnit_mem (q : ℚ) : -1 ≤ clampUnit q ∧ clampUnit q ≤ 1 := by
  unfold clampUnit pyMinQ pyMaxQ
  split_ifs <;> constructor <;> linarith

/-- Inside the deadzone band the normalized axis is exactly 0. -/
theorem normAxis_in_band {v : ℤ} (h : |2 * v - 1023| ≤ 120) : normAxis v = 0 := by
  have h119 : |2 * v - 1023| ≤ 119 := by
    rcases abs_le.mp h with ⟨hl, hr⟩
    rw [abs_le]
    omega
  have hq : |(v : ℚ) - analogCenter| < DEADZONE := by
    rw [centered_cast, abs_div, abs_two, div_lt_iff (by norm_num : (0:ℚ) < 2)]
    rw [← Int.cast_abs]
    calc ((|2 * v - 1023| : ℤ) : ℚ) ≤ 119 := by exact_mod_cast h119
    _ < DEADZONE * 2 := by norm_num [DEADZONE]
  unfold normAxis applyDeadzone
  rw [if_pos hq]
  norm_num [clampUnit, pyMinQ, pyMaxQ]

/-- Outside the deadzone band, for raw values in range, the normalized
axis is the plain linear rescale (the clamp is inactive). -/
theorem normAxis_linear {v : ℤ} (h0 : 0 ≤ v) (h1 : v ≤ 1023)
    (h : 120 ≤ |2 * v - 1023|) :
    normAxis v = ((v : ℚ) - analogCenter) / analogHalf := by
  have hq : ¬ |(v : ℚ) - analogCenter| < DEADZONE := by
    rw [centered_cast, abs_div, abs_two, not_lt,
      le_div_iff (by norm_num : (0:ℚ) < 2), ← Int.cast_abs]
    calc (DEADZONE * 2 : ℚ) = 120 := by norm_num [DEADZONE]
    _ ≤ ((|2 * v - 1023| : ℤ) : ℚ) := by exact_mod_cast h
  have hub : ((v : ℚ) - analogCenter) / analogHalf ≤ 1 := by
    rw [analogCenter_eq, analogHalf_eq, div_le_one (by norm_num)]
    have : (v : ℚ) ≤ 1023 := by exact_mod_cast h1
    linarith
  have hlb : -1 ≤ ((v : ℚ) - analogCenter) / analogHalf := by
    rw [analogCenter_eq, analogHalf_eq, le_div_iff (by norm_num : (0:ℚ) < 1023/2)]
    have : (0 : ℚ) ≤ (v : ℚ) := by exact_mod_cast h0
    linarith
  unfold normAxis applyDeadzone
  rw [if_neg hq, clampUnit_id hlb hub]

/-- The normalized axis always lies in [-1, 1]. -/
theorem normAxis_bounds (v : ℤ) : -1 ≤ normAxis v ∧ normAxis v ≤ 1 :=
  clampUnit_mem _

/-- Strict monotonicity outside the band, within the raw range. -/
theorem normAxis_strictMono {v1 v2 : ℤ} (h0 : 0 ≤ v1) (h1 : v2 ≤ 1023)
    (hlt : v1 < v2) (hb1 : 120 ≤ |2 * v1 - 1023|) (hb2 : 120 ≤ |2 * v2 - 1023|) :
    normAxis v1 < normAxis v2 := by
  rw [normAxis_linear h0 (by omega) hb1, normAxis_linear (by omega) h1 hb2,
    analogCenter_eq, analogHalf_eq,
    div_lt_div_iff_of_pos_right (by norm_num : (0:ℚ) < 1023/2)]
  have : (v1 : ℚ) < (v2 : ℚ) := by exact_mod_cast hlt
  linarith

/-- C2: with center 511.5 and deadzone 60 on the raw range [0, 1023]
(expressed over ℤ, the band `|v - 511.5| ≤ 60` is `|2v - 1023| ≤ 120`):
`normalize` is exactly 0 on the closed deadzone band; outside the band
and within range it is the plain linear rescale (so the only
discontinuity is the zero-clamp jump at the band edge), it is strictly
monotonic, it always stays within [-1, 1], and it attains -1 and +1 at
the range extremes. -/
theorem C2_deadzone_normalize :
    (∀ v : ℤ, |2 * v - 1023| ≤ 120 → normAxis v = 0) ∧
    (∀ v : ℤ, 0 ≤ v → v ≤ 1023 → 120 ≤ |2 * v - 1023| →
      normAxis v = ((v : ℚ) - analogCenter) / analogHalf) ∧
    (∀ v : ℤ, -1 ≤ normAxis v ∧ normAxis v ≤ 1) ∧
    normAxis 0 = -1 ∧ normAxis 1023 = 1 ∧
    (∀ v1 v2 : ℤ, 0 ≤ v1 → v2 ≤ 1023 → v1 < v2 →
      120 ≤ |2 * v1 - 1023| → 120 ≤ |2 * v2 - 1023| →
      normAxis v1 < normAxis v2) :=
  ⟨fun _ h => normAxis_in_band h,
   fun _ h0 h1 h => normAxis_linear h0 h1 h,
   normAxis_bounds,
   by norm_num [normAxis_unfold, pyMaxQ, pyMinQ, abs_lt],
   by norm_num [normAxis_unfold, pyMaxQ, pyMinQ, abs_lt],
   fun _ _ h0 h1 hlt hb1 hb2 => normAxis_strictMono h0 h1 hlt hb1 hb2⟩

/-- Witness for C2 at concrete inputs: 512 is inside the band and maps to
0; 700 is outside and maps to the linear rescale; bounds at 712; strict
monotonicity between 600 and 700. -/
theorem C2_deadzone_normalize_witness :
    normAxis 512 = 0 ∧
    normAxis 700 = ((700 : ℚ) - analogCenter) / analogHalf ∧
    (-1 ≤ normAxis 712 ∧ normAxis 712 ≤ 1) ∧
    normAxis 600 < normAxis 700 :=
  ⟨C2_deadzone_normalize.1 512 (by decide),
   C2_deadzone_normalize.2.1 700 (by decide) (by decide) (by decide),
   C2_deadzone_normalize.2.2.1 712,
   C2_deadzone_normalize.2.2.2.2.2 600 700 (by decide) (by decide)
     (by decide) (by decide) (by decide)⟩

/-- C6: parsing the line `{"x":512,"y":512}` yields the sample
`(512, 512)`, and normalizing it with deadzone 60 over [0,1023] yields
the control vector exactly `(0, 0)`. -/
theorem C6_roundtrip_center :
    lineStep "\x7b\"x\":512,\"y\":512\x7d".data = .ok (some (512, 512)) ∧
    (handleSerialMessages (initState false) [(512, 512)]).forward = 0 ∧
    (handleSerialMessages (initState false) [(512, 512)]).turn = 0 := by
  refine ⟨rfl, ?_, ?_⟩ <;>
    norm_num [handleSerialMessages, handleSerialMsg, initState, turnOf,
      forwardOf, SENSITIVITY_ROT, SENSITIVITY_MOVE, normAxis_unfold,
      pyMaxQ, pyMinQ, abs_lt]

/-- C5: for every elapsed time `dt` the frame loop's
`dt = max(0.0, min(1/15, dt))` (line 420) clamps `dt` into `[0, 1/15]`,
so the squared magnitude of the position delta of one `update` is at most
`(forward * FORWARD_SPEED * (1/15))^2`, for any yaw direction
(`sinYaw^2 + cosYaw^2 = 1`). -/
theorem C5_dt_clamp (dt f s c : ℚ) (h : s ^ 2 + c ^ 2 = 1) :
    0 ≤ clampDt dt ∧ clampDt dt ≤ 1/15 ∧
    (moveDelta f s c (clampDt dt)).1 ^ 2 + (moveDelta f s c (clampDt dt)).2 ^ 2 ≤
      (f * FORWARD_SPEED * (1/15)) ^ 2 := by
  have hcl : 0 ≤ clampDt dt ∧ clampDt dt ≤ 1/15 := by
    unfold clampDt pyMaxQ pyMinQ
    split_ifs <;> constructor <;> linarith
  refine ⟨hcl.1, hcl.2, ?_⟩
  have hd2 : clampDt dt ^ 2 ≤ (1/15 : ℚ) ^ 2 := by nlinarith [hcl.1, hcl.2]
  unfold moveDelta
  split_ifs with hf
  · dsimp only
    have e1 : (s * f * FORWARD_SPEED * clampDt dt) ^ 2 +
        (c * f * FORWARD_SPEED * clampDt dt) ^ 2 =
        (s ^ 2 + c ^ 2) * ((f * FORWARD_SPEED) ^ 2 * clampDt dt ^ 2) := by ring
    have e2 : (f * FORWARD_SPEED * (1/15)) ^ 2 =
        (f * FORWARD_SPEED) ^ 2 * (1/15 : ℚ) ^ 2 := by ring
    rw [e1, h, one_mul, e2]
    exact mul_le_mul_of_nonneg_left hd2 (sq_nonneg _)
  · dsimp only
    calc (0 : ℚ) ^ 2 + 0 ^ 2 = 0 := by norm_num
    _ ≤ (f * FORWARD_SPEED * (1/15)) ^ 2 := sq_nonneg _

/-- Witness for C5 at the stall input `dt = 5.0` with the unit direction
`(sin, cos) = (0, 1)` and full forward control. -/
theorem C5_dt_clamp_witness :
    0 ≤ clampDt 5 ∧ clampDt 5 ≤ 1/15 ∧
    (moveDelta 1 0 1 (clampDt 5)).1 ^ 2 + (moveDelta 1 0 1 (clampDt 5)).2 ^ 2 ≤
      ((1 : ℚ) * FORWARD_SPEED * (1/15)) ^ 2 :=
  C5_dt_clamp 5 1 0 1 (by simp)

def wKey : Keys := { w := true, s := false, q := false, e := false }

/-- C7 counterexample: after the centered device sample `(512, 512)` is
processed (so `bt_connected` is true and a device sample has been
received this session), the next frame's `handle_input` still reads the
keyboard — holding W sets `forward = 1` — because the gate at line 296 is
`not (self.forward or self.turn)`, not device receipt. -/
theorem C7_counterexample :
    (runFrames (initState false) [⟨[(512, 512)], noKeys, 1/10⟩]).btConnected = true ∧
    (runFrames (initState false) [⟨[(512, 512)], noKeys, 1/10⟩]).forward = 0 ∧
    (runFrames (initState false) [⟨[(512, 512)], noKeys, 1/10⟩]).turn = 0 ∧
    (runFrames (initState false)
        [⟨[(512, 512)], noKeys, 1/10⟩, ⟨[], wKey, 1/10⟩]).forward = 1 := by
  norm_num [runFrames, stepFrame, gameUpdate, updateYaw, handleSerialMessages,
    handleSerialMsg, handleInput, initState, noKeys, wKey, kForward, kTurn,
    turnOf, forwardOf, SENSITIVITY_ROT, SENSITIVITY_MOVE, ROT_SPEED,
    normAxis_unfold, pyMaxQ, pyMinQ, abs_lt]

theorem clampUnit_pos {q : ℚ} (h : 0 < q) : 0 < clampUnit q := by
  unfold clampUnit pyMinQ pyMaxQ
  split_ifs <;> linarith

theorem clampUnit_neg {q : ℚ} (h : q < 0) : clampUnit q < 0 := by
  unfold clampUnit pyMinQ pyMaxQ
  split_ifs <;> linarith

theorem deadzone_off {v : ℤ} (h : 120 ≤ |2 * v - 1023|) :
    ¬ |(v : ℚ) - analogCenter| < DEADZONE := by
  rw [centered_cast, abs_div, abs_two, not_lt,
    le_div_iff (by norm_num : (0:ℚ) < 2), ← Int.cast_abs]
  calc (DEADZONE * 2 : ℚ) = 120 := by norm_num [DEADZONE]
  _ ≤ ((|2 * v - 1023| : ℤ) : ℚ) := by exact_mod_cast h

/-- Outside the deadzone band the normalized axis is never 0. -/
theorem normAxis_ne_zero_outside {v : ℤ} (h : 120 ≤ |2 * v - 1023|) :
    normAxis v ≠ 0 := by
  have hq := deadzone_off h
  have h60 : (60 : ℚ) ≤ |(v : ℚ) - analogCenter| := by
    have := not_lt.mp hq
    norm_num [DEADZONE] at this
    exact this
  unfold normAxis applyDeadzone
  rw [if_neg hq]
  rcases le_abs.mp h60 with hp | hn
  · exact ne_of_gt (clampUnit_pos
      (div_pos (by linarith) (by rw [analogHalf_eq]; norm_num)))
  · exact ne_of_lt (clampUnit_neg
      (div_neg_of_neg_of_pos (by linarith) (by rw [analogHalf_eq]; norm_num)))

/-- C7 amended: the keyboard path is gated on the current control vector
being exactly zero, not on whether a device sample has been received.
After a device sample whose axes both lie in the deadzone band
(`|2v - 1023| ≤ 120`, i.e. `|v - 511.5| ≤ 60`), the control vector is
zero and `handle_input` sources control from the keyboard even though
`bt_connected` is true; after a sample whose x axis is outside the band
the device-derived control is nonzero and `handle_input` leaves the state
untouched (the keyboard path is not used). -/
theorem C7_keyboard_gate (st : GState) (k : Keys) (x y : ℤ) :
    (|2 * x - 1023| ≤ 120 → |2 * y - 1023| ≤ 120 →
      (handleSerialMsg st (x, y)).btConnected = true ∧
      (handleInput (handleSerialMsg st (x, y)) k).forward = kForward k ∧
      (handleInput (handleSerialMsg st (x, y)) k).turn = kTurn k) ∧
    (120 ≤ |2 * x - 1023| →
      handleInput (handleSerialMsg st (x, y)) k = handleSerialMsg st (x, y)) := by
  constructor
  · intro hx hy
    have ht : turnOf x = 0 := by
      unfold turnOf
      rw [normAxis_in_band hx]
      ring
    have hf : forwardOf y = 0 := by
      unfold forwardOf
      rw [normAxis_in_band hy]
      ring
    refine ⟨by simp [handleSerialMsg], ?_, ?_⟩ <;>
      simp [handleInput, handleSerialMsg, hf, ht]
  · intro hx
    have ht : turnOf x ≠ 0 := by
      unfold turnOf
      exact mul_ne_zero (normAxis_ne_zero_outside hx)
        (by norm_num [SENSITIVITY_ROT])
    unfold handleInput
    rw [if_neg]
    intro hc
    exact ht (by simpa [handleSerialMsg] using hc.2)

/-- Witness for C7 amended: the centered sample `(512, 512)` with W held
re-enables the keyboard path in the very state where `bt_connected` has
just been set. -/
theorem C7_keyboard_gate_witness :
    (handleSerialMsg (initState false) (512, 512)).btConnected = true ∧
    (handleInput (handleSerialMsg (initState false) (512, 512)) wKey).forward =
      kForward wKey ∧
    (handleInput (handleSerialMsg (initState false) (512, 512)) wKey).turn =
      kTurn wKey :=
  (C7_keyboard_gate (initState false) wKey 512 512).1 (by decide) (by decide)

/-! Helper lemmas for the connection-flag claim. -/

theorem handleSerialMsg_bt (st : GState) (m : ℤ × ℤ) :
    (handleSerialMsg st m).btConnected = true := by
  simp [handleSerialMsg]

theorem handleSerialMessages_bt_mono :
    ∀ (msgs : List (ℤ × ℤ)) (st : GState), st.btConnected = true →
      (handleSerialMessages st msgs).btConnected = true := by
  intro msgs
  induction msgs with
  | nil => intro st h; exact h
  | cons m rest ih =>
    intro st _
    exact ih (handleSerialMsg st m) (handleSerialMsg_bt st m)

theorem handleSerialMessages_bt_nonempty (st : GState) :
    ∀ msgs : List (ℤ × ℤ), msgs ≠ [] →
      (handleSerialMessages st msgs).btConnected = true := by
  intro msgs h
  match msgs with
  | m :: rest =>
    exact handleSerialMessages_bt_mono rest (handleSerialMsg st m)
      (handleSerialMsg_bt st m)

theorem handleInput_bt (st : GState) (k : Keys) :
    (handleInput st k).btConnected = st.btConnected := by
  unfold handleInput
  split_ifs <;> rfl

theorem stepFrame_bt_mono (st : GState) (fi : FrameInput)
    (h : st.btConnected = true) : (stepFrame st fi).btConnected = true := by
  unfold stepFrame gameUpdate updateYaw
  exact handleSerialMessages_bt_mono fi.msgs _ ((handleInput_bt st fi.keys).trans h)

theorem runFrames_bt_mono :
    ∀ (fis : List FrameInput) (st : GState), st.btConnected = true →
      (runFrames st fis).btConnected = true := by
  intro fis
  induction fis with
  | nil => intro st h; exact h
  | cons fi rest ih =>
    intro st h
    exact ih (stepFrame st fi) (stepFrame_bt_mono st fi h)

/-- The connect message of line 289 has been printed exactly once if the
flag is set and never otherwise. -/
def LogInv (st : GState) : Prop :=
  st.logs = if st.btConnected then 1 else 0

theorem handleSerialMsg_loginv {st : GState} (h : LogInv st) (m : ℤ × ℤ) :
    LogInv (handleSerialMsg st m) := by
  unfold LogInv at h ⊢
  cases hb : st.btConnected <;> simp [handleSerialMsg, hb, hb ▸ h]

theorem handleSerialMessages_loginv :
    ∀ (msgs : List (ℤ × ℤ)) {st : GState}, LogInv st →
      LogInv (handleSerialMessages st msgs) := by
  intro msgs
  induction msgs with
  | nil => intro st h; exact h
  | cons m rest ih => intro st h; exact ih (handleSerialMsg_loginv h m)

theorem handleInput_logs (st : GState) (k : Keys) :
    (handleInput st k).logs = st.logs := by
  unfold handleInput
  split_ifs <;> rfl

theorem handleInput_loginv {st : GState} (h : LogInv st) (k : Keys) :
    LogInv (handleInput st k) := by
  unfold LogInv
  rw [handleInput_logs, handleInput_bt]
  exact h

theorem stepFrame_loginv {st : GState} (h : LogInv st) (fi : FrameInput) :
    LogInv (stepFrame st fi) := by
  unfold stepFrame gameUpdate
  have h1 := handleSerialMessages_loginv fi.msgs (handleInput_loginv h fi.keys)
  unfold LogInv at h1 ⊢
  simpa [updateYaw] using h1

theorem runFrames_loginv :
    ∀ (fis : List FrameInput) {st : GState}, LogInv st →
      LogInv (runFrames st fis) := by
  intro fis
  induction fis with
  | nil => intro st h; exact h
  | cons fi rest ih => intro st h; exact ih (stepFrame_loginv h fi)

/-- Once the flag is set, processing a message neither prints nor clears:
line 287's `if not self.bt_connected` is false. -/
theorem handleSerialMsg_keep {st : GState} (h : st.btConnected = true)
    (m : ℤ × ℤ) :
    (handleSerialMsg st m).logs = st.logs ∧
      (handleSerialMsg st m).btConnected = true := by
  simp [handleSerialMsg, h]

theorem handleSerialMessages_keep :
    ∀ (msgs : List (ℤ × ℤ)) {st : GState}, st.btConnected = true →
      (handleSerialMessages st msgs).logs = st.logs ∧
        (handleSerialMessages st msgs).btConnected = true := by
  intro msgs
  induction msgs with
  | nil => intro st h; exact ⟨rfl, h⟩
  | cons m rest ih =>
    intro st h
    have hm := handleSerialMsg_keep h m
    have hr := ih hm.2
    exact ⟨hr.1.trans hm.1, hr.2⟩

theorem stepFrame_keep {st : GState} (h : st.btConnected = true)
    (fi : FrameInput) :
    (stepFrame st fi).logs = st.logs ∧ (stepFrame st fi).btConnected = true := by
  unfold stepFrame gameUpdate
  have hi : (handleInput st fi.keys).btConnected = true :=
    (handleInput_bt st fi.keys).trans h
  have hm := handleSerialMessages_keep fi.msgs hi
  refine ⟨?_, ?_⟩
  · simpa [updateYaw, handleInput_logs] using hm.1
  · simpa [updateYaw] using hm.2

theorem runFrames_keep :
    ∀ (fis : List FrameInput) {st : GState}, st.btConnected = true →
      (runFrames st fis).logs = st.logs ∧
        (runFrames st fis).btConnected = true := by
  intro fis
  induction fis with
  | nil => intro st h; exact ⟨rfl, h⟩
  | cons fi rest ih =>
    intro st h
    have hf := stepFrame_keep h fi
    have hr := ih hf.2
    exact ⟨hr.1.trans hf.1, hr.2⟩

/-- C8 counterexample: in the session where the serial open succeeded
within the 0.5 s startup sleep, `__init__` line 253 reads
`self.serial_thread.connected` as true, so the first device sample is
processed with the flag already set and line 289's message is never
printed: the log count after the first sample is 0, not 1 — the claim's
"a message is logged exactly once" fails. -/
theorem C8_counterexample :
    (initState true).btConnected = true ∧
    (runFrames (initState true) [⟨[(700, 512)], noKeys, 1/60⟩]).btConnected =
      true ∧
    (runFrames (initState true) [⟨[(700, 512)], noKeys, 1/60⟩]).logs = 0 ∧
    ¬ (runFrames (initState true) [⟨[(700, 512)], noKeys, 1/60⟩]).logs = 1 := by
  refine ⟨rfl, ?_, ?_, ?_⟩ <;>
    simp [runFrames, stepFrame, gameUpdate, updateYaw, handleSerialMessages,
      handleSerialMsg, handleInput, initState, noKeys, kForward, kTurn]

/-- C8 amended: processing any device sample sets `bt_connected`, and
once true the flag survives every further frame — the code contains no
assignment back to false, so after the first sample every reachable state
stays Connected.  The "Receiving joystick data" message is logged exactly
once per session when the session starts disconnected (`bt_connected`
false at line 253): in every reachable state the log count is 1 once the
flag is set and 0 before.  When the session starts with the flag already
true (serial open succeeded before the startup check), the message is
never logged: the count stays 0 forever. -/
theorem C8_connected_permanent :
    (∀ (st : GState) (msgs : List (ℤ × ℤ)), msgs ≠ [] →
      (handleSerialMessages st msgs).btConnected = true) ∧
    (∀ (st : GState) (fi : FrameInput), st.btConnected = true →
      (stepFrame st fi).btConnected = true) ∧
    (∀ (st : GState) (fis : List FrameInput), st.btConnected = true →
      (runFrames st fis).btConnected = true) ∧
    (∀ fis : List FrameInput,
      (runFrames (initState false) fis).logs =
        if (runFrames (initState false) fis).btConnected then 1 else 0) ∧
    (∀ fis : List FrameInput, (runFrames (initState true) fis).logs = 0) :=
  ⟨fun st msgs h => handleSerialMessages_bt_nonempty st msgs h,
   fun st fi h => stepFrame_bt_mono st fi h,
   fun st fis h => runFrames_bt_mono fis st h,
   fun fis => runFrames_loginv fis (by simp [LogInv, initState]),
   fun fis => (runFrames_keep fis (by simp [initState])).1⟩

/-- Witness for C8 amended: one frame containing the sample `(700, 512)`
flips the flag; a further empty frame keeps it true; the log count is 1
from the disconnected start and 0 from the already-connected start. -/
theorem C8_connected_permanent_witness :
    (handleSerialMessages (initState false) [(700, 512)]).btConnected = true ∧
    ((runFrames (initState false) [⟨[(700, 512)], noKeys, 1/60⟩,
        ⟨[], noKeys, 1/60⟩]).logs =
      if (runFrames (initState false) [⟨[(700, 512)], noKeys, 1/60⟩,
        ⟨[], noKeys, 1/60⟩]).btConnected then 1 else 0) ∧
    (runFrames (initState true) [⟨[(700, 512)], noKeys, 1/60⟩]).logs = 0 :=
  ⟨C8_connected_permanent.1 (initState false) [(700, 512)] (by simp),
   C8_connected_permanent.2.2.2.1 [⟨[(700, 512)], noKeys, 1/60⟩, ⟨[], noKeys, 1/60⟩],
   C8_connected_permanent.2.2.2.2 [⟨[(700, 512)], noKeys, 1/60⟩]⟩

/-- C3 counterexample: in the `joystick-bluetooth` variant, when
auto-discovery yields no candidate (`PortNotFound`, here: an empty port
list), `find_bluetooth_port` calls `sys.exit(1)` — the process
terminates; it does not degrade to a local-input fallback mode. -/
theorem C3_counterexample :
    findBluetoothPort [] = .error () ∧
    cubeStartup [] (fun _ => true) = .terminated := ⟨rfl, rfl⟩

/-- C3 amended: only the 3D variant (`character.py`) degrades: no path of
its startup terminates the process; a failed open surfaces exactly one
error report and leaves the game in keyboard-fallback mode, and so does
an empty discovery.  The `joystick-bluetooth` variant instead terminates
whenever `find_bluetooth_port` fails (`sys.exit(1)`; an open failure is
an uncaught exception). -/
theorem C3_startup_fallback (cfg : Option (List Char)) (ports : List PortInfo)
    (openOk : List Char → Bool) :
    ((characterStartup cfg ports openOk).1 ≠ .terminated) ∧
    (∀ dev, findSerialPort cfg ports = some dev → openOk dev = false →
      characterStartup cfg ports openOk = (.fallbackMode, 1)) ∧
    (findSerialPort cfg ports = none →
      characterStartup cfg ports openOk = (.fallbackMode, 0)) ∧
    (findBluetoothPort ports = .error () → cubeStartup ports openOk = .terminated) := by
  refine ⟨?_, ?_, ?_, ?_⟩
  · unfold characterStartup
    cases h : findSerialPort cfg ports with
    | none => simp
    | some dev =>
      dsimp only
      split_ifs <;> simp
  · intro dev hdev hopen
    unfold characterStartup
    rw [hdev]
    simp [hopen]
  · intro hnone
    unfold characterStartup
    rw [hnone]
  · intro herr
    unfold cubeStartup
    rw [herr]

/-- Witness for C3 amended: a configured port whose open fails leaves the
3D variant in fallback mode with one error report. -/
theorem C3_startup_fallback_witness :
    characterStartup (some "COM5".data) [] (fun _ => false) =
      (.fallbackMode, 1) :=
  (C3_startup_fallback (some "COM5".data) [] (fun _ => false)).2.1
    "COM5".data (by decide) (by decide)

/-! Helper lemmas for the malformed-line claim: one pass of the inner
line loop accounts for exactly the samples of the lines it consumed, and
the loop as a whole therefore produces the samples of all valid lines. -/

theorem drainOnce_split (ls : List (List Char)) :
    (drainOnce ls).1 ++ (drainOnce ls).2.filterMap goodSample =
      ls.filterMap goodSample := by
  induction ls with
  | nil => rfl
  | cons l ls ih =>
    cases h : lineStep l with
    | error e =>
      have hg : goodSample l = none := by unfold goodSample; rw [h]
      simp [drainOnce, h, List.filterMap_cons, hg]
    | ok o =>
      cases o with
      | none =>
        have hg : goodSample l = none := by unfold goodSample; rw [h]
        simp only [drainOnce, h, List.filterMap_cons, hg]
        exact ih
      | some s =>
        have hg : goodSample l = some s := by unfold goodSample; rw [h]
        simp only [drainOnce, h, List.filterMap_cons, hg, List.cons_append]
        exact congrArg (s :: ·) ih

theorem drainOnce_len (ls : List (List Char)) :
    (drainOnce ls).2.length + 1 ≤ ls.length ∨ (drainOnce ls).2 = [] := by
  induction ls with
  | nil => right; rfl
  | cons l ls ih =>
    cases h : lineStep l with
    | error e =>
      left
      simp [drainOnce, h]
    | ok o =>
      cases o with
      | none =>
        rcases ih with hlen | hnil
        · left
          simp only [drainOnce, h, List.length_cons]
          omega
        · right
          simp only [drainOnce, h]
          exact hnil
      | some s =>
        rcases ih with hlen | hnil
        · left
          simp only [drainOnce, h, List.length_cons]
          omega
        · right
          simp only [drainOnce, h]
          exact hnil

theorem drainAll_eq :
    ∀ (fuel : ℕ) (ls : List (List Char)), ls.length ≤ fuel →
      drainAll fuel ls = ls.filterMap goodSample := by
  intro fuel
  induction fuel with
  | zero =>
    intro ls h
    rw [List.length_eq_zero.mp (Nat.le_zero.mp h)]
    rfl
  | succ fuel ih =>
    intro ls h
    match ls with
    | [] => rfl
    | l :: ls' =>
      have hrest : (drainOnce (l :: ls')).2.length ≤ fuel := by
        rcases drainOnce_len (l :: ls') with hlen | hnil
        · simp only [List.length_cons] at h hlen
          omega
        · rw [hnil]
          exact Nat.zero_le _
      show (drainOnce (l :: ls')).1 ++ drainAll fuel (drainOnce (l :: ls')).2 =
        (l :: ls').filterMap goodSample
      rw [ih _ hrest]
      exact drainOnce_split (l :: ls')

/-- C4: every line that fails to parse — structurally malformed like
`"=== Arduino Started ==="` (a swallowed `json.JSONDecodeError`) or with
a field `int(...)` rejects (an exception the outer handler of line 145
catches) — contributes no sample and stops nothing: the read loop
produces exactly the samples of the valid lines, in order, with valid
lines before and after any malformed one parsed correctly. -/
theorem C4_malformed_tolerance :
    (∀ (fuel : ℕ) (lines : List (List Char)), lines.length ≤ fuel →
      drainAll fuel lines = lines.filterMap goodSample) ∧
    lineStep "=== Arduino Started ===".data = .ok none ∧
    lineStep "\x7b\"x\":true?\x7d".data = .ok none ∧
    lineStep "\x7b\"x\":null,\"y\":512\x7d".data = .error () ∧
    drainAll 4 ["\x7b\"x\":1023,\"y\":512\x7d".data,
      "=== Arduino Started ===".data,
      "\x7b\"x\":null,\"y\":512\x7d".data,
      "\x7b\"x\":0,\"y\":512\x7d".data] = [(1023, 512), (0, 512)] :=
  ⟨drainAll_eq, rfl, rfl, rfl, rfl⟩

/-- Witness for C4 applying the universal part at a concrete interleaved
stream. -/
theorem C4_malformed_tolerance_witness :
    drainAll 2 ["=== Arduino Started ===".data,
      "\x7b\"x\":1023,\"y\":512\x7d".data] =
      (["=== Arduino Started ===".data,
        "\x7b\"x\":1023,\"y\":512\x7d".data]).filterMap goodSample :=
  C4_malformed_tolerance.1 2 _ (by decide)

/-! Helper lemmas for the 2D boundary claim. -/

theorem new2D_inBounds (pos joy : ℤ × ℤ) : inBounds2D (new2D pos joy) := by
  unfold inBounds2D new2D pyMaxZ pyMinZ
  dsimp only
  split_ifs <;> omega

theorem step2D_inBounds {pos : ℤ × ℤ} (prev joy : ℤ × ℤ)
    (h : inBounds2D pos) : inBounds2D (step2D prev pos joy) := by
  unfold step2D
  split_ifs
  · exact new2D_inBounds pos joy
  · exact h

theorem foldl_step2D_inBounds :
    ∀ (samples : List (ℤ × ℤ)) (pos : ℤ × ℤ), inBounds2D pos →
      inBounds2D (samples.foldl (step2D (400, 300)) pos) := by
  intro samples
  induction samples with
  | nil => intro pos h; exact h
  | cons joy rest ih =>
    intro pos h
    exact ih _ (step2D_inBounds (400, 300) joy h)

/-- C9: in the 2D variant, starting from the centered initial position
`(400, 300)`, after every update driven by a parsed joystick sample the
character stays within `[25, 775] × [25, 575]`, i.e.
`[character_size/2, win_width - character_size/2]` horizontally and the
same with the height vertically — every intermediate state of the run is
in bounds, since every prefix of the sample list is itself a run. -/
theorem C9_position_in_bounds :
    (∀ (pos : ℤ × ℤ) (prev joy : ℤ × ℤ), inBounds2D pos →
      inBounds2D (step2D prev pos joy)) ∧
    (∀ samples : List (ℤ × ℤ), inBounds2D (run2D samples)) :=
  ⟨fun _ prev joy h => step2D_inBounds prev joy h,
   fun samples => foldl_step2D_inBounds samples (400, 300) (by decide)⟩

/-- Witness for C9 at a hard-left/hard-up sample from the start state. -/
theorem C9_position_in_bounds_witness :
    inBounds2D (step2D (400, 300) (400, 300) (0, 0)) ∧
    inBounds2D (run2D [(0, 0), (1023, 1023), (0, 1023)]) :=
  ⟨C9_position_in_bounds.1 (400, 300) (400, 300) (0, 0) (by decide),
   C9_position_in_bounds.2 [(0, 0), (1023, 1023), (0, 1023)]⟩

/-- C10: the delimited parser accepts a three-field line only when every
field is a nonempty run of decimal digits; a sign or an inner space makes
`isdigit()` false, so lines such as `"-5,100,1"`, `"+5,100,1"` or
`"5, 1,2"` are silently discarded even though they match the
`<int>,<int>,<int>` wire shape, while an all-digit line is parsed. -/
theorem C10_digit_fields_only :
    (∀ (raw : List Char) (t : ℤ × ℤ × ℤ), parse2DLine raw = some t →
      ((stripChars raw).splitOn ',').length = 3 ∧
      ((stripChars raw).splitOn ',').all pyIsDigitStr = true) ∧
    parse2DLine "-5,100,1".data = none ∧
    parse2DLine "+5,100,1".data = none ∧
    parse2DLine "5, 1,2".data = none ∧
    parse2DLine "512,512,1".data = some (512, 512, 1) := by
  refine ⟨?_, rfl, rfl, rfl, rfl⟩
  intro raw t h
  unfold parse2DLine at h
  dsimp only at h
  split_ifs at h with h0
  rcases hs : List.splitOn ',' (stripChars raw) with _ | ⟨a, _ | ⟨b, _ | ⟨c, _ | ⟨d, tl⟩⟩⟩⟩ <;>
    rw [hs] at h <;> dsimp only at h <;> try exact Option.noConfusion h
  split_ifs at h with hd
  exact ⟨rfl, by simp [hd.1, hd.2.1, hd.2.2]⟩

/-- Witness for C10: the accepted line `"512,512,1"` indeed consists of
three all-digit fields. -/
theorem C10_digit_fields_only_witness :
    ((stripChars "512,512,1".data).splitOn ',').length = 3 ∧
    ((stripChars "512,512,1".data).splitOn ',').all pyIsDigitStr = true :=
  C10_digit_fields_only.1 "512,512,1".data (512, 512, 1) (by decide)

end EmbSys
